import Mathlib

/-!
Shallow embedding of the smithy-rs runtime core:
standard token bucket, presigning window validation, the controlled
time/sleep test utilities, and the interceptor pipeline's before-signing
ordering.
-/

/-! ## Token bucket (`standard_token_bucket.rs`)

`StandardTokenBucket` holds an `Arc<Semaphore>`: cloning the bucket clones
the `Arc`, so every clone points at the same semaphore.  The heap of live
semaphores is modelled as a function `Semaphores : Nat → Nat` from a
semaphore id (the `Arc` allocation) to its available permit count; a bucket
stores the id of its semaphore. -/

/-- `ErrorKind` from `aws_smithy_types::retry`. -/
inductive ErrorKind
  | TransientError
  | ThrottlingError
  | ServerError
  | ClientError
deriving DecidableEq, Repr

/-- The pool of live `tokio::sync::Semaphore` allocations: semaphore id to
available permit count. -/
def Semaphores : Type := Nat → Nat

/-- `const DEFAULT_CAPACITY: usize = 500`. -/
def DEFAULT_CAPACITY : Nat := 500

/-- `const RETRY_COST: u32 = 5`. -/
def RETRY_COST : Nat := 5

/-- `const RETRY_TIMEOUT_COST: u32 = RETRY_COST * 2`. -/
def RETRY_TIMEOUT_COST : Nat := RETRY_COST * 2

/-- `const PERMIT_REGENERATION_AMOUNT: usize = 1`. -/
def PERMIT_REGENERATION_AMOUNT : Nat := 1

/-- `StandardTokenBucket`: `semaphore` is the id of the shared
`Arc<Semaphore>`; the remaining fields mirror the Rust struct. -/
structure StandardTokenBucket where
  semaphore : Nat
  max_permits : Nat
  timeout_retry_cost : Nat
  retry_cost : Nat
deriving DecidableEq, Repr

/-- `StandardTokenBucket::new(initial_quota)`.  The Rust constructor
allocates a fresh `Arc<Semaphore>` with `initial_quota` permits; `semId`
names that fresh allocation in the heap. -/
def StandardTokenBucket.new (initial_quota : Nat) (semId : Nat) : StandardTokenBucket :=
  { semaphore := semId
    max_permits := initial_quota
    retry_cost := RETRY_COST
    timeout_retry_cost := RETRY_TIMEOUT_COST }

/-- Point update of the semaphore heap: the permit count of the semaphore
at id `j` becomes `v`; every other allocation is untouched. -/
def Semaphores.set (s : Semaphores) (j : Nat) (v : Nat) : Semaphores :=
  fun i => if i = j then v else s i

theorem Semaphores.set_same (s : Semaphores) (j v : Nat) : s.set j v j = v :=
  if_pos rfl

/-- `Semaphore::new(permits)` installed at id `semId` in the heap. -/
def Semaphores.alloc (s : Semaphores) (semId : Nat) (permits : Nat) : Semaphores :=
  s.set semId permits

/-- `#[derive(Clone)]` on `StandardTokenBucket`: `Arc::clone` yields a
handle to the same semaphore allocation, the scalar fields are copied. -/
def StandardTokenBucket.clone (b : StandardTokenBucket) : StandardTokenBucket := b

/-- `self.semaphore.available_permits()`. -/
def StandardTokenBucket.availablePermits (b : StandardTokenBucket) (s : Semaphores) : Nat :=
  s b.semaphore

/-- The cost computed at the top of `StandardTokenBucket::acquire`:
`timeout_retry_cost` for `ErrorKind::TransientError`, else `retry_cost`. -/
def StandardTokenBucket.acquireCost (b : StandardTokenBucket) (err : ErrorKind) : Nat :=
  if err = ErrorKind.TransientError then b.timeout_retry_cost else b.retry_cost

/-- `StandardTokenBucket::acquire(err)`:
`try_acquire_many_owned(cost)` atomically subtracts `cost` permits when
enough are available, returning a permit of that many units; otherwise it
fails immediately and the semaphore is untouched.  The returned `Option Nat`
is the granted permit (its size), paired with the post-state of the heap. -/
def StandardTokenBucket.acquire (b : StandardTokenBucket) (err : ErrorKind) (s : Semaphores) :
    Option Nat × Semaphores :=
  if b.acquireCost err ≤ s b.semaphore then
    (some (b.acquireCost err), s.set b.semaphore (s b.semaphore - b.acquireCost err))
  else
    (none, s)

/-- `StandardTokenBucket::regenerate_a_token()`: add
`PERMIT_REGENERATION_AMOUNT` permits back, only when the available count is
below `max_permits`. -/
def StandardTokenBucket.regenerate_a_token (b : StandardTokenBucket) (s : Semaphores) :
    Semaphores :=
  if s b.semaphore < b.max_permits then
    s.set b.semaphore (s b.semaphore + PERMIT_REGENERATION_AMOUNT)
  else s

/-- Iterate `acquire`, holding every granted permit (no permit is ever
dropped back): `none` once any acquisition fails. -/
def StandardTokenBucket.acquireN (b : StandardTokenBucket) (err : ErrorKind) (s : Semaphores) :
    Nat → Option Semaphores
  | 0 => some s
  | n + 1 =>
    match b.acquireN err s n with
    | some s' =>
      match b.acquire err s' with
      | (some _, s'') => some s''
      | (none, _) => none
    | none => none

/-- `StandardTokenBucketRuntimePlugin` wraps a bucket. -/
structure StandardTokenBucketRuntimePlugin where
  token_bucket : StandardTokenBucket
deriving DecidableEq, Repr

/-- The frozen config layer produced by
`StandardTokenBucketRuntimePlugin::config`: the single entry stored by
`cfg.store_put(self.token_bucket.clone())`. -/
structure FrozenLayer where
  token_bucket : StandardTokenBucket
deriving DecidableEq, Repr

/-- `RuntimePlugin::config for StandardTokenBucketRuntimePlugin`: build a
layer, store a clone of the bucket, freeze it. -/
def StandardTokenBucketRuntimePlugin.config (p : StandardTokenBucketRuntimePlugin) :
    Option FrozenLayer :=
  some { token_bucket := p.token_bucket.clone }

/-! ## Presigning window validation (`presigning.rs`)

`Duration` and `SystemTime` are modelled as `Nat` nanosecond counts (a
`std::time::Duration` is an exact nanosecond quantity and its ordering is
the ordering of those quantities; a `SystemTime` is an offset from the
epoch).  `SystemTime::now()` is passed to `build` explicitly. -/

namespace Presigning

/-- `const ONE_WEEK: Duration = Duration::from_secs(604800)`, in
nanoseconds. -/
def ONE_WEEK : Nat := 604800 * 1000000000

/-- `PresigningConfig`. -/
structure PresigningConfig where
  start_time : Nat
  expires_in : Nat
deriving DecidableEq, Repr

/-- Returns the amount of time the presigned request should be valid for
(`PresigningConfig::expires`). -/
def PresigningConfig.expires (c : PresigningConfig) : Nat := c.expires_in

/-- The private `ErrorKind` of `presigning.rs`. -/
inductive ErrorKind
  | ExpiresInDurationTooLong
  | ExpiresInRequired
deriving DecidableEq, Repr

/-- `PresigningConfigError` wraps the kind. -/
structure PresigningConfigError where
  kind : ErrorKind
deriving DecidableEq, Repr

/-- `PresigningConfigBuilder` with its two optional fields. -/
structure PresigningConfigBuilder where
  start_time : Option Nat
  expires_in : Option Nat
deriving DecidableEq, Repr

/-- `PresigningConfigBuilder::default()`: both fields unset. -/
def PresigningConfigBuilder.default : PresigningConfigBuilder :=
  { start_time := none, expires_in := none }

/-- `PresigningConfigBuilder::set_start_time`. -/
def PresigningConfigBuilder.set_start_time (b : PresigningConfigBuilder)
    (t : Option Nat) : PresigningConfigBuilder :=
  { b with start_time := t }

/-- `PresigningConfigBuilder::set_expires_in`. -/
def PresigningConfigBuilder.set_expires_in (b : PresigningConfigBuilder)
    (d : Option Nat) : PresigningConfigBuilder :=
  { b with expires_in := d }

/-- `PresigningConfigBuilder::build`: fail with `ExpiresInRequired` when
`expires_in` is unset, fail with `ExpiresInDurationTooLong` when it
exceeds `ONE_WEEK` (strictly), otherwise succeed, defaulting `start_time`
to the current wall clock `now`. -/
def PresigningConfigBuilder.build (b : PresigningConfigBuilder) (now : Nat) :
    Except PresigningConfigError PresigningConfig :=
  match b.expires_in with
  | none => Except.error { kind := ErrorKind.ExpiresInRequired }
  | some expires_in =>
    if ONE_WEEK < expires_in then
      Except.error { kind := ErrorKind.ExpiresInDurationTooLong }
    else
      Except.ok { start_time := b.start_time.getD now, expires_in := expires_in }

/-- C2: `build` fails with the "required" error exactly when `expires_in`
was never set; with `expires_in` set strictly above one week (604800
seconds) it fails with the "too long" error; with any set
`expires_in ≤ one week` (604800 seconds included) it succeeds. -/
theorem presigning_build_spec (b : PresigningConfigBuilder) (now : Nat) :
    (b.expires_in = none →
      b.build now = Except.error { kind := ErrorKind.ExpiresInRequired }) ∧
    (∀ d, b.expires_in = some d →
      (ONE_WEEK < d →
        b.build now = Except.error { kind := ErrorKind.ExpiresInDurationTooLong }) ∧
      (d ≤ ONE_WEEK →
        b.build now =
          Except.ok { start_time := b.start_time.getD now, expires_in := d })) := by
  constructor
  · intro hnone
    unfold PresigningConfigBuilder.build
    rw [hnone]
  · intro d hd
    constructor
    · intro hlong
      unfold PresigningConfigBuilder.build
      rw [hd]
      simp only [if_pos hlong]
    · intro hok
      unfold PresigningConfigBuilder.build
      rw [hd]
      simp only [if_neg (Nat.not_lt.mpr hok)]

/-- C2 witness: building with `expires_in` unset fails with the required
error; building with `expires_in` of exactly one week succeeds; building
with one week plus a nanosecond fails with the too-long error. -/
theorem presigning_build_spec_witness :
    PresigningConfigBuilder.build { start_time := none, expires_in := none } 0 =
      Except.error { kind := ErrorKind.ExpiresInRequired } ∧
    PresigningConfigBuilder.build { start_time := none, expires_in := some ONE_WEEK } 0 =
      Except.ok { start_time := 0, expires_in := ONE_WEEK } ∧
    PresigningConfigBuilder.build
        { start_time := none, expires_in := some (ONE_WEEK + 1) } 0 =
      Except.error { kind := ErrorKind.ExpiresInDurationTooLong } := by
  refine ⟨?_, ?_, ?_⟩
  · exact (presigning_build_spec { start_time := none, expires_in := none } 0).1 rfl
  · exact ((presigning_build_spec
      { start_time := none, expires_in := some ONE_WEEK } 0).2 ONE_WEEK rfl).2
      (le_refl ONE_WEEK)
  · exact ((presigning_build_spec
      { start_time := none, expires_in := some (ONE_WEEK + 1) } 0).2 (ONE_WEEK + 1)
      rfl).1 (Nat.lt_succ_self ONE_WEEK)

end Presigning

/-! ## Interceptor pipeline ordering (before-signing phase)

The pipeline implementation itself lives outside the retained source; only
the integration test `interceptors.rs` exercising it is present.  The
pipeline is therefore modelled from the spec; the two concrete hooks
(`RequestTimeResetInterceptor`, `RequestTimeAdvanceInterceptor`) are
embedded from the test file. -/

/-- Modelled from the spec: the slice of the layered config store a
before-signing hook can read and mutate — here the active request-time
source, a `StaticTimeSource` modelled as its fixed timestamp. -/
structure ConfigBag where
  request_time : Option Nat
deriving DecidableEq, Repr

/-- Modelled from the spec: a `modify_before_signing` hook receives mutable
access to the config store and may fail (failure aborts the phase); `none`
is a hook failure or panic. -/
def Hook : Type := ConfigBag → Option ConfigBag

/-- Modelled from the spec: the before-signing phase of one call runs every
client-scope hook before every call-scope hook, each scope in registration
order, threading the config store through and stopping at the first
failure. -/
def runPhase (clientHooks callHooks : List Hook) (cfg : ConfigBag) : Option ConfigBag :=
  (clientHooks ++ callHooks).foldlM (fun c h => h c) cfg

/-- `RequestTimeResetInterceptor` from `interceptors.rs`, generalised from
`UNIX_EPOCH` to an arbitrary epoch `t0`: `cfg.set_request_time(
StaticTimeSource::new(t0))`. -/
def RequestTimeResetInterceptor (t0 : Nat) : Hook :=
  fun cfg => some { cfg with request_time := some t0 }

/-- `RequestTimeAdvanceInterceptor(d)` from `interceptors.rs`: read the
stored request-time source, advance it by `d`, store it back
(`cfg.request_time().unwrap()` panics when no time source is stored). -/
def RequestTimeAdvanceInterceptor (d : Nat) : Hook :=
  fun cfg =>
    match cfg.request_time with
    | some t => some { cfg with request_time := some (t + d) }
    | none => none

/-- C3: in the before-signing phase, a client-scope hook that resets the
request time source to `t0` followed by a call-scope hook that advances
the stored source by `d` yields an observed transmission time of exactly
`t0 + d` — for every `t0`, `d`, and initial config (so neither the initial
wall-clock value plus `d`, nor `t0` alone, unless those coincide with
`t0 + d`). -/
theorem interceptor_client_scope_before_call_scope (t0 d : Nat) (cfg : ConfigBag) :
    runPhase [RequestTimeResetInterceptor t0] [RequestTimeAdvanceInterceptor d] cfg =
      some { request_time := some (t0 + d) } ∧
    (d ≠ 0 →
      runPhase [RequestTimeResetInterceptor t0] [RequestTimeAdvanceInterceptor d] cfg ≠
        some { request_time := some t0 }) ∧
    (∀ n, cfg.request_time = some n → n ≠ t0 →
      runPhase [RequestTimeResetInterceptor t0] [RequestTimeAdvanceInterceptor d] cfg ≠
        some { request_time := some (n + d) }) := by
  have hrun : runPhase [RequestTimeResetInterceptor t0]
      [RequestTimeAdvanceInterceptor d] cfg = some { request_time := some (t0 + d) } := by
    rfl
  refine ⟨hrun, ?_, ?_⟩
  · intro hd hcontra
    rw [hrun] at hcontra
    have : t0 + d = t0 := by
      have h1 := Option.some.inj hcontra
      have h2 := congrArg ConfigBag.request_time h1
      exact Option.some.inj h2
    omega
  · intro n _ hn hcontra
    rw [hrun] at hcontra
    have : t0 + d = n + d := by
      have h1 := Option.some.inj hcontra
      have h2 := congrArg ConfigBag.request_time h1
      exact Option.some.inj h2
    omega

/-- C3 witness: the theorem applied at epoch 0, advance 1624036048, and an
initial config whose request time is 77. -/
theorem interceptor_client_scope_before_call_scope_witness :
    runPhase [RequestTimeResetInterceptor 0] [RequestTimeAdvanceInterceptor 1624036048]
        { request_time := some 77 } =
      some { request_time := some (0 + 1624036048) } ∧
    (1624036048 ≠ 0 →
      runPhase [RequestTimeResetInterceptor 0]
          [RequestTimeAdvanceInterceptor 1624036048] { request_time := some 77 } ≠
        some { request_time := some 0 }) ∧
    (∀ n, ConfigBag.request_time { request_time := some 77 } = some n → n ≠ 0 →
      runPhase [RequestTimeResetInterceptor 0]
          [RequestTimeAdvanceInterceptor 1624036048] { request_time := some 77 } ≠
        some { request_time := some (n + 1624036048) }) :=
  interceptor_client_scope_before_call_scope 0 1624036048 { request_time := some 77 }

/-- C1: acquire costs 10 permits for `TransientError` and 5 otherwise (the
transient cost is exactly double); holding every granted permit, from
capacity 500 exactly 100 `acquire(ServerError)` calls succeed and the 101st
returns no permit, and from capacity 20 exactly two `acquire(TransientError)`
calls succeed and a third returns no permit. -/
theorem tokenBucket_acquire_costs_and_exhaustion :
    (∀ q semId err, (StandardTokenBucket.new q semId).acquireCost err =
      if err = ErrorKind.TransientError then 10 else 5) ∧
    (∀ q semId, (StandardTokenBucket.new q semId).timeout_retry_cost =
      2 * (StandardTokenBucket.new q semId).retry_cost) ∧
    ((StandardTokenBucket.new 500 0).acquireN ErrorKind.ServerError
      (fun i => if i = 0 then 500 else 0) 100).isSome = true ∧
    ((StandardTokenBucket.new 500 0).acquireN ErrorKind.ServerError
      (fun i => if i = 0 then 500 else 0) 101).isNone = true ∧
    ((StandardTokenBucket.new 20 0).acquireN ErrorKind.TransientError
      (fun i => if i = 0 then 20 else 0) 2).isSome = true ∧
    ((StandardTokenBucket.new 20 0).acquireN ErrorKind.TransientError
      (fun i => if i = 0 then 20 else 0) 3).isNone = true := by
  refine ⟨?_, ?_, ?_, ?_, ?_, ?_⟩
  · intro q semId err
    cases err <;> rfl
  · intro q semId
    rfl
  · rfl
  · rfl
  · rfl
  · rfl

/-- C4: with `availablePermits ≤ max_permits`, `acquire` fails (returns no
permit) exactly when the available count is below the attempt's cost; a
failed acquire leaves the heap untouched; a successful acquire grants a
permit of exactly the cost and decreases the count by exactly that cost
with no truncation, so `availablePermits ≤ max_permits` is preserved. -/
theorem tokenBucket_acquire_fail_noop_success_exact
    (b : StandardTokenBucket) (err : ErrorKind) (s : Semaphores)
    (h : b.availablePermits s ≤ b.max_permits) :
    ((b.acquire err s).1 = none ↔ b.availablePermits s < b.acquireCost err) ∧
    ((b.acquire err s).1 = none → (b.acquire err s).2 = s) ∧
    (∀ c, (b.acquire err s).1 = some c →
      c = b.acquireCost err ∧
      StandardTokenBucket.availablePermits b (b.acquire err s).2 + c =
        b.availablePermits s) ∧
    StandardTokenBucket.availablePermits b (b.acquire err s).2 ≤ b.max_permits := by
  unfold StandardTokenBucket.availablePermits at h ⊢
  by_cases hc : b.acquireCost err ≤ s b.semaphore
  · have hacq : b.acquire err s =
        (some (b.acquireCost err),
          s.set b.semaphore (s b.semaphore - b.acquireCost err)) := by
      unfold StandardTokenBucket.acquire
      rw [if_pos hc]
    rw [hacq]
    dsimp only
    refine ⟨?_, ?_, ?_, ?_⟩
    · simp [Nat.not_lt.mpr hc]
    · intro hcontra
      simp at hcontra
    · intro c hc'
      have hcc : c = b.acquireCost err := by
        simpa using hc'.symm
      subst hcc
      refine ⟨rfl, ?_⟩
      rw [Semaphores.set_same]
      omega
    · rw [Semaphores.set_same]
      omega
  · have hacq : b.acquire err s = (none, s) := by
      unfold StandardTokenBucket.acquire
      rw [if_neg hc]
    rw [hacq]
    dsimp only
    refine ⟨?_, ?_, ?_, ?_⟩
    · simpa using Nat.lt_of_not_le hc
    · intro _
      rfl
    · intro c hc'
      simp at hc'
    · exact h

/-- C4 witness: the theorem applied to a fresh bucket of capacity 500 with
a full heap and a transient error. -/
theorem tokenBucket_acquire_fail_noop_success_exact_witness :
    (((StandardTokenBucket.new 500 0).acquire ErrorKind.TransientError
        (fun _ => 500)).1 = none ↔
      (StandardTokenBucket.new 500 0).availablePermits (fun _ => 500) <
        (StandardTokenBucket.new 500 0).acquireCost ErrorKind.TransientError) ∧
    (((StandardTokenBucket.new 500 0).acquire ErrorKind.TransientError
        (fun _ => 500)).1 = none →
      ((StandardTokenBucket.new 500 0).acquire ErrorKind.TransientError
        (fun _ => 500)).2 = (fun _ => 500)) ∧
    (∀ c, ((StandardTokenBucket.new 500 0).acquire ErrorKind.TransientError
        (fun _ => 500)).1 = some c →
      c = (StandardTokenBucket.new 500 0).acquireCost ErrorKind.TransientError ∧
      StandardTokenBucket.availablePermits (StandardTokenBucket.new 500 0)
          ((StandardTokenBucket.new 500 0).acquire ErrorKind.TransientError
            (fun _ => 500)).2 + c =
        (StandardTokenBucket.new 500 0).availablePermits (fun _ => 500)) ∧
    StandardTokenBucket.availablePermits (StandardTokenBucket.new 500 0)
        ((StandardTokenBucket.new 500 0).acquire ErrorKind.TransientError
          (fun _ => 500)).2 ≤ (StandardTokenBucket.new 500 0).max_permits :=
  tokenBucket_acquire_fail_noop_success_exact (StandardTokenBucket.new 500 0)
    ErrorKind.TransientError (fun _ => 500) (by decide)

/-- C5: with `a = availablePermits ≤ max_permits = C`, one call to
`regenerate_a_token` yields `a + 1` when `a < C` and leaves `a` unchanged
when `a = C`; the result never exceeds `C`. -/
theorem tokenBucket_regenerate_adds_one_capped
    (b : StandardTokenBucket) (s : Semaphores)
    (h : b.availablePermits s ≤ b.max_permits) :
    (b.availablePermits s < b.max_permits →
      StandardTokenBucket.availablePermits b (b.regenerate_a_token s) =
        b.availablePermits s + 1) ∧
    (b.availablePermits s = b.max_permits →
      StandardTokenBucket.availablePermits b (b.regenerate_a_token s) =
        b.availablePermits s) ∧
    StandardTokenBucket.availablePermits b (b.regenerate_a_token s) ≤ b.max_permits := by
  unfold StandardTokenBucket.availablePermits at h ⊢
  by_cases hlt : s b.semaphore < b.max_permits
  · have hreg : b.regenerate_a_token s =
        s.set b.semaphore (s b.semaphore + PERMIT_REGENERATION_AMOUNT) := by
      unfold StandardTokenBucket.regenerate_a_token
      rw [if_pos hlt]
    rw [hreg, Semaphores.set_same]
    unfold PERMIT_REGENERATION_AMOUNT
    exact ⟨fun _ => rfl, fun heq => absurd heq (Nat.ne_of_lt hlt), Nat.succ_le_of_lt hlt⟩
  · have hreg : b.regenerate_a_token s = s := by
      unfold StandardTokenBucket.regenerate_a_token
      rw [if_neg hlt]
    rw [hreg]
    exact ⟨fun hcontra => absurd hcontra hlt, fun _ => rfl, h⟩

/-- C5 witness: the theorem applied to a bucket of capacity 500 holding 499
permits. -/
theorem tokenBucket_regenerate_adds_one_capped_witness :
    ((StandardTokenBucket.new 500 0).availablePermits (fun _ => 499) <
        (StandardTokenBucket.new 500 0).max_permits →
      StandardTokenBucket.availablePermits (StandardTokenBucket.new 500 0)
          ((StandardTokenBucket.new 500 0).regenerate_a_token (fun _ => 499)) =
        (StandardTokenBucket.new 500 0).availablePermits (fun _ => 499) + 1) ∧
    ((StandardTokenBucket.new 500 0).availablePermits (fun _ => 499) =
        (StandardTokenBucket.new 500 0).max_permits →
      StandardTokenBucket.availablePermits (StandardTokenBucket.new 500 0)
          ((StandardTokenBucket.new 500 0).regenerate_a_token (fun _ => 499)) =
        (StandardTokenBucket.new 500 0).availablePermits (fun _ => 499)) ∧
    StandardTokenBucket.availablePermits (StandardTokenBucket.new 500 0)
        ((StandardTokenBucket.new 500 0).regenerate_a_token (fun _ => 499)) ≤
      (StandardTokenBucket.new 500 0).max_permits :=
  tokenBucket_regenerate_adds_one_capped (StandardTokenBucket.new 500 0)
    (fun _ => 499) (by decide)

/-- C10: the bucket clone stored into the frozen config layer by
`StandardTokenBucketRuntimePlugin::config` shares the plugin's semaphore:
a successful `acquire` through the stored clone decreases the permits
observed through the original bucket by exactly the granted amount, and
`regenerate_a_token` through the stored clone is visible through the
original bucket. -/
theorem tokenBucket_clones_share_pool
    (p : StandardTokenBucketRuntimePlugin) (l : FrozenLayer) (s : Semaphores)
    (err : ErrorKind) (hconfig : p.config = some l) :
    l.token_bucket.semaphore = p.token_bucket.semaphore ∧
    (∀ c s', l.token_bucket.acquire err s = (some c, s') →
      p.token_bucket.availablePermits s' + c = p.token_bucket.availablePermits s) ∧
    StandardTokenBucket.availablePermits p.token_bucket
        (l.token_bucket.regenerate_a_token s) =
      (if p.token_bucket.availablePermits s < p.token_bucket.max_permits then
        p.token_bucket.availablePermits s + 1
      else p.token_bucket.availablePermits s) := by
  have h2 : ({ token_bucket := p.token_bucket.clone } : FrozenLayer) = l :=
    Option.some.inj hconfig
  have hlb : l.token_bucket = p.token_bucket :=
    (congrArg FrozenLayer.token_bucket h2.symm).trans rfl
  rw [hlb]
  refine ⟨rfl, ?_, ?_⟩
  · intro c s' hacq
    unfold StandardTokenBucket.availablePermits
    by_cases hc : p.token_bucket.acquireCost err ≤ s p.token_bucket.semaphore
    · have heq : (some (p.token_bucket.acquireCost err),
          s.set p.token_bucket.semaphore
            (s p.token_bucket.semaphore - p.token_bucket.acquireCost err)) =
          ((some c, s') : Option Nat × Semaphores) := by
        rw [← hacq]
        unfold StandardTokenBucket.acquire
        rw [if_pos hc]
      injection heq with h1 hs
      have hcc : p.token_bucket.acquireCost err = c := Option.some.inj h1
      subst hcc
      subst hs
      rw [Semaphores.set_same]
      omega
    · have heq : ((none, s) : Option Nat × Semaphores) = (some c, s') := by
        rw [← hacq]
        unfold StandardTokenBucket.acquire
        rw [if_neg hc]
      injection heq with h1 hs
      simp at h1
  · unfold StandardTokenBucket.availablePermits
    by_cases hlt : s p.token_bucket.semaphore < p.token_bucket.max_permits
    · have hreg : p.token_bucket.regenerate_a_token s =
          s.set p.token_bucket.semaphore
            (s p.token_bucket.semaphore + PERMIT_REGENERATION_AMOUNT) := by
        unfold StandardTokenBucket.regenerate_a_token
        rw [if_pos hlt]
      rw [hreg, Semaphores.set_same, if_pos hlt]
      rfl
    · have hreg : p.token_bucket.regenerate_a_token s = s := by
        unfold StandardTokenBucket.regenerate_a_token
        rw [if_neg hlt]
      rw [hreg, if_neg hlt]

/-- C10 witness: the theorem applied to a plugin wrapping a fresh bucket of
capacity 500 over a full heap. -/
theorem tokenBucket_clones_share_pool_witness :
    (StandardTokenBucketRuntimePlugin.mk
        (StandardTokenBucket.new 500 0)).token_bucket.semaphore =
      (StandardTokenBucket.new 500 0).semaphore ∧
    (∀ c s', (StandardTokenBucketRuntimePlugin.mk
        (StandardTokenBucket.new 500 0)).token_bucket.acquire ErrorKind.ServerError
        (fun _ => 500) = (some c, s') →
      (StandardTokenBucket.new 500 0).availablePermits s' + c =
        (StandardTokenBucket.new 500 0).availablePermits (fun _ => 500)) ∧
    StandardTokenBucket.availablePermits (StandardTokenBucket.new 500 0)
        ((StandardTokenBucketRuntimePlugin.mk
          (StandardTokenBucket.new 500 0)).token_bucket.regenerate_a_token
          (fun _ => 500)) =
      (if (StandardTokenBucket.new 500 0).availablePermits (fun _ => 500) <
          (StandardTokenBucket.new 500 0).max_permits then
        (StandardTokenBucket.new 500 0).availablePermits (fun _ => 500) + 1
      else (StandardTokenBucket.new 500 0).availablePermits (fun _ => 500)) := by
  have h := tokenBucket_clones_share_pool
    (StandardTokenBucketRuntimePlugin.mk (StandardTokenBucket.new 500 0))
    { token_bucket := StandardTokenBucket.new 500 0 }
    (fun _ => 500) ErrorKind.ServerError rfl
  exact h

/-! ## Controlled time and sleep (`test_util.rs`)

`controlled_time_and_sleep` wires a `ManualTimeSource`, a `ControlledSleep`
and a `SleepGate` around shared cells: a duration log
(`Arc<Mutex<Vec<Duration>>>`), a single-slot pending duration
(`Arc<Mutex<Option<Duration>>>`), a two-party `Barrier` and a one-shot
release channel.  The shared cells and the progress of the participating
tasks are modelled as one state, and each observable step of the protocol
as an event; durations are `Nat` nanosecond counts.

The body of `ControlledSleep::sleep` runs, in order: assert the pending
slot is empty, write the duration into it, arm the release channel, wait
on the barrier, push the duration onto the log, then wait for the release.
`SleepGate::expect_sleep` waits on the barrier under a one-second timeout
(timeout is a test failure), takes the pending duration (falling back to a
sentinel), and returns a `CapturedSleep` that releases the sleeper when
consumed or dropped. -/

/-- `ManualTimeSource`: the start time; the shared log lives in the
protocol state. -/
structure ManualTimeSource where
  start_time : Nat
deriving DecidableEq, Repr

/-- The fallback `Duration::from_secs(123456)` used by `expect_sleep` when
the pending slot is unexpectedly empty, in nanoseconds. -/
def SENTINEL_DURATION : Nat := 123456 * 1000000000

/-- The `timeout(Duration::from_secs(1), ...)` bound in
`SleepGate::expect_sleep`, in seconds. -/
def EXPECT_SLEEP_TIMEOUT_SECS : Nat := 1

/-- The shared cells of one `ControlledSleep`/`SleepGate` pair plus the
progress of the tasks driving it:
`log` is the shared duration log read by `ManualTimeSource::now`;
`pending` the single-slot duration record;
`parked` the durations of sleep futures waiting at the barrier (FIFO);
`postBarrier` the durations of sleep futures past the barrier that have
not yet pushed onto the log;
`captured` the durations of outstanding unreleased `CapturedSleep` guards;
`assertFailed` records a violation of `assert!(pending.is_none())`;
`timedOut` records an `expect_sleep` timeout failure. -/
structure GateState where
  log : List Nat
  pending : Option Nat
  parked : List Nat
  postBarrier : List Nat
  captured : List Nat
  assertFailed : Bool
  timedOut : Bool
deriving DecidableEq, Repr

/-- `ManualTimeSource::now`: start time plus the sum of the shared log. -/
def ManualTimeSource.now (t : ManualTimeSource) (s : GateState) : Nat :=
  t.start_time + s.log.sum

/-- The observable steps of the protocol. -/
inductive Event
  | sleepCall (d : Nat)
  | expectSleep
  | logStep
  | release
deriving DecidableEq, Repr

/-- One step of the protocol.
`sleepCall d`: a sleep future is polled up to the barrier — it asserts the
pending slot is empty (a non-empty slot is the assertion failure), writes
`d` into it, arms the release channel and parks at the barrier.
`expectSleep`: the controller waits on the barrier — with no parked future
the one-second timeout elapses and the call fails; otherwise the barrier
releases the head future past it, the controller takes the pending
duration (sentinel when empty) and holds it as a `CapturedSleep`.
`logStep`: a future past the barrier pushes its duration onto the shared
log and starts waiting on the release channel.
`release`: a `CapturedSleep` is consumed or dropped, releasing its
sleeper. -/
def step (s : GateState) (e : Event) : GateState :=
  if s.assertFailed then s
  else
    match e with
    | Event.sleepCall d =>
      if s.pending.isSome then { s with assertFailed := true }
      else { s with pending := some d, parked := s.parked ++ [d] }
    | Event.expectSleep =>
      match s.parked with
      | [] => { s with timedOut := true }
      | d :: rest =>
        { s with
            parked := rest
            postBarrier := s.postBarrier ++ [d]
            captured := s.captured ++ [s.pending.getD SENTINEL_DURATION]
            pending := none }
    | Event.logStep =>
      match s.postBarrier with
      | [] => s
      | d :: rest => { s with postBarrier := rest, log := s.log ++ [d] }
    | Event.release => { s with captured := s.captured.drop 1 }

/-- Run a sequence of protocol events. -/
def run (s : GateState) (es : List Event) : GateState :=
  es.foldl step s

/-- The state right after `controlled_time_and_sleep`: empty log, empty
pending slot, no waiting tasks, no failures. -/
def initGateState : GateState :=
  { log := []
    pending := none
    parked := []
    postBarrier := []
    captured := []
    assertFailed := false
    timedOut := false }

/-- One complete handshake: a sleep of duration `d` driven through the
gate and released. -/
def fullCycle (d : Nat) : List Event :=
  [Event.sleepCall d, Event.expectSleep, Event.logStep, Event.release]

/-- The event sequence of successive complete handshakes. -/
def cycles : List Nat → List Event
  | [] => []
  | d :: ds => fullCycle d ++ cycles ds

theorem run_append (s : GateState) (as bs : List Event) :
    run s (as ++ bs) = run (run s as) bs := by
  unfold run
  rw [List.foldl_append]

theorem run_fullCycle (l : List Nat) (d : Nat) :
    run { log := l, pending := none, parked := [], postBarrier := [], captured := [],
          assertFailed := false, timedOut := false } (fullCycle d) =
      { log := l ++ [d], pending := none, parked := [], postBarrier := [],
        captured := [], assertFailed := false, timedOut := false } :=
  rfl

theorem run_cycles (ds : List Nat) (l : List Nat) :
    run { log := l, pending := none, parked := [], postBarrier := [], captured := [],
          assertFailed := false, timedOut := false } (cycles ds) =
      { log := l ++ ds, pending := none, parked := [], postBarrier := [],
        captured := [], assertFailed := false, timedOut := false } := by
  induction ds generalizing l with
  | nil => simp [cycles, run]
  | cons d ds ih =>
    show run _ (fullCycle d ++ cycles ds) = _
    rw [run_append, run_fullCycle, ih]
    simp

/-- C6: a `ManualTimeSource` started at `start`, paired with a
`ControlledSleep` driven through `N` complete gate-released handshakes of
durations `ds`, reports `now()` equal to `start` plus the sum of the
recorded durations — the log is exactly `ds`, with no assertion failure
and no timeout, independent of any wall clock. -/
theorem manualTimeSource_reflects_released_cycles (start : Nat) (ds : List Nat) :
    ManualTimeSource.now { start_time := start } (run initGateState (cycles ds)) =
      start + ds.sum ∧
    (run initGateState (cycles ds)).log = ds ∧
    (run initGateState (cycles ds)).assertFailed = false ∧
    (run initGateState (cycles ds)).timedOut = false := by
  have h : run initGateState (cycles ds) =
      { log := [] ++ ds, pending := none, parked := [], postBarrier := [],
        captured := [], assertFailed := false, timedOut := false } :=
    run_cycles ds []
  rw [h]
  refine ⟨?_, ?_, rfl, rfl⟩
  · simp [ManualTimeSource.now]
  · simp

/-- C7 counterexample: a sleep of 7 driven to the barrier handshake and
logged, with its `CapturedSleep` still outstanding (never released): a
`now()` read on a `ManualTimeSource` started at 100 already reports 107,
not the pre-sleep 100 the claim requires before release. -/
theorem controlledSleep_now_before_release_counterexample :
    (run initGateState [Event.sleepCall 7, Event.expectSleep, Event.logStep]).captured =
      [7] ∧
    ManualTimeSource.now { start_time := 100 }
      (run initGateState [Event.sleepCall 7, Event.expectSleep, Event.logStep]) = 107 ∧
    (107 : Nat) ≠ 100 := by
  refine ⟨rfl, rfl, by omega⟩

/-- C7 amended: `now()` reflects exactly the recorded durations — it is
the start time plus the log's sum; issuing a sleep, the barrier handshake
of `expect_sleep`, and releasing a `CapturedSleep` all leave the log
unchanged, so `now()` still reflects pre-sleep time while the sleep is
pending (unclaimed); the duration enters the log at the producer's
post-handshake log write, which needs no release — so a `now()` read after
the handshake may already include it even though the `CapturedSleep` is
unreleased. -/
theorem controlledSleep_now_reflects_recorded (start d : Nat) (s : GateState) :
    ManualTimeSource.now { start_time := start } s = start + s.log.sum ∧
    (step s (Event.sleepCall d)).log = s.log ∧
    (step s Event.expectSleep).log = s.log ∧
    (step s Event.release).log = s.log ∧
    (∀ rest, s.assertFailed = false → s.postBarrier = d :: rest →
      (step s Event.logStep).log = s.log ++ [d]) := by
  refine ⟨rfl, ?_, ?_, ?_, ?_⟩
  · by_cases haf : s.assertFailed
    · simp [step, haf]
    · by_cases hp : s.pending.isSome
      · simp [step, haf, hp]
      · simp [step, haf, hp]
  · by_cases haf : s.assertFailed
    · simp [step, haf]
    · cases hpk : s.parked with
      | nil => simp [step, haf, hpk]
      | cons d0 rest => simp [step, haf, hpk]
  · by_cases haf : s.assertFailed
    · simp [step, haf]
    · simp [step, haf]
  · intro rest haf hpb
    simp [step, haf, hpb]

/-- C7 amended witness: the amended theorem applied to the state reached
after a sleep of 7 has passed the handshake, whose `postBarrier` queue is
`[7]`. -/
theorem controlledSleep_now_reflects_recorded_witness :
    (ManualTimeSource.now { start_time := 100 }
        (run initGateState [Event.sleepCall 7, Event.expectSleep]) =
      100 + (run initGateState [Event.sleepCall 7, Event.expectSleep]).log.sum) ∧
    ((step (run initGateState [Event.sleepCall 7, Event.expectSleep])
        (Event.sleepCall 7)).log =
      (run initGateState [Event.sleepCall 7, Event.expectSleep]).log) ∧
    ((step (run initGateState [Event.sleepCall 7, Event.expectSleep])
        Event.expectSleep).log =
      (run initGateState [Event.sleepCall 7, Event.expectSleep]).log) ∧
    ((step (run initGateState [Event.sleepCall 7, Event.expectSleep])
        Event.release).log =
      (run initGateState [Event.sleepCall 7, Event.expectSleep]).log) ∧
    (∀ rest,
      (run initGateState [Event.sleepCall 7, Event.expectSleep]).assertFailed = false →
      (run initGateState [Event.sleepCall 7, Event.expectSleep]).postBarrier =
        7 :: rest →
      (step (run initGateState [Event.sleepCall 7, Event.expectSleep])
        Event.logStep).log =
        (run initGateState [Event.sleepCall 7, Event.expectSleep]).log ++ [7]) :=
  controlledSleep_now_reflects_recorded 100 7
    (run initGateState [Event.sleepCall 7, Event.expectSleep])

/-- C8 counterexample: first sleep claimed by `expect_sleep` and logged
but never released (its `CapturedSleep` is still outstanding); a second
sleep call is then issued — no assertion failure is raised and the second
sleep is silently queued at the barrier. -/
theorem controlledSleep_second_sleep_before_release_counterexample :
    (run initGateState [Event.sleepCall 1, Event.expectSleep, Event.logStep,
        Event.sleepCall 2]).assertFailed = false ∧
    (run initGateState [Event.sleepCall 1, Event.expectSleep, Event.logStep,
        Event.sleepCall 2]).captured = [1] ∧
    (run initGateState [Event.sleepCall 1, Event.expectSleep, Event.logStep,
        Event.sleepCall 2]).parked = [2] := by
  refine ⟨rfl, rfl, rfl⟩

/-- C8 amended: a second sleep call issued while the first sleep's
duration is still in the pending slot — before `expect_sleep` has claimed
it — trips `assert!(pending.is_none())`: at most one unclaimed sleep can
be in flight.  (Between the claim by `expect_sleep` and the release, a
second sleep is queued without an assertion failure.) -/
theorem controlledSleep_second_sleep_unclaimed_asserts (s : GateState) (d1 d2 : Nat)
    (haf : s.assertFailed = false) (hp : s.pending = none) :
    (step (step s (Event.sleepCall d1)) (Event.sleepCall d2)).assertFailed = true := by
  simp [step, haf, hp]

/-- C8 amended witness: the amended theorem applied to the fresh state
with sleeps of 1 and 2. -/
theorem controlledSleep_second_sleep_unclaimed_asserts_witness :
    (step (step initGateState (Event.sleepCall 1))
      (Event.sleepCall 2)).assertFailed = true :=
  controlledSleep_second_sleep_unclaimed_asserts initGateState 1 2 rfl rfl

/-- C9: `expect_sleep` called with no sleep parked at the barrier does not
return a `CapturedSleep`: it fails with the timeout failure after its
bounded wait (the code's bound is one second), leaving the outstanding
guards unchanged. -/
theorem sleepGate_expect_sleep_times_out (s : GateState)
    (haf : s.assertFailed = false) (hpk : s.parked = []) :
    (step s Event.expectSleep).timedOut = true ∧
    (step s Event.expectSleep).captured = s.captured ∧
    EXPECT_SLEEP_TIMEOUT_SECS = 1 := by
  refine ⟨?_, ?_, rfl⟩
  · simp [step, haf, hpk]
  · simp [step, haf, hpk]

/-- C9 witness: the theorem applied to the fresh state, where no sleep is
pending. -/
theorem sleepGate_expect_sleep_times_out_witness :
    (step initGateState Event.expectSleep).timedOut = true ∧
    (step initGateState Event.expectSleep).captured = initGateState.captured ∧
    EXPECT_SLEEP_TIMEOUT_SECS = 1 :=
  sleepGate_expect_sleep_times_out initGateState rfl rfl
